import Mathlib

/-!
Shallow embedding of the scaffold-sh/aws-serverless-docker infrastructure
composition code (a CDK-for-Terraform stack).  Each "construct" of the source
is translated into a pure Lean function that returns the list of resource
descriptors it emits, in emission order, together with an optional error for
the `throw new Error(...)` paths.  Terraform tokens (identifiers of resources
that only exist at provisioning time) are modelled as interpolation strings,
exactly as the source embeds them with `Token.asString` / template literals.
-/

/-- A Terraform interpolation `${expr}`, as the source's template literals
`\${...}` produce. -/
def tfRef (expr : String) : String := "$\x7b" ++ expr ++ "\x7d"

/-- JavaScript truthiness of an optional string value (`undefined` and the
empty string are falsy). -/
def truthyStr : Option String → Bool
  | none => false
  | some s => !s.isEmpty

/-- JavaScript truthiness of an optional array value (`undefined` is falsy,
any array — even an empty one — is truthy). -/
def truthyList : Option (List String) → Bool
  | none => false
  | some _ => true

/-- JavaScript truthiness of an optional boolean value. -/
def truthyBool : Option Bool → Bool
  | none => false
  | some b => b

/-- JavaScript template-literal embedding of a possibly-undefined string:
`undefined` prints as the literal text "undefined". -/
def jsEmbed : Option String → String
  | some s => s
  | none => "undefined"

/-! ## Network data model (src/lib/constructs/network) -/

/-- The VPC resource configuration (vpc.ts). -/
structure VpcDesc where
  cidrBlock : String
  enableDnsSupport : Bool
  enableDnsHostnames : Bool
  tagName : String
  deriving Repr, DecidableEq

/-- A subnet resource configuration (subnets.ts). -/
structure SubnetDesc where
  availabilityZone : String
  cidrBlock : String
  vpcId : String
  tagName : String
  mapPublicIpOnLaunch : Bool
  deriving Repr, DecidableEq

/-- An elastic-IP resource configuration (elasticIps.ts). -/
structure EipDesc where
  tagName : String
  vpc : Bool
  deriving Repr, DecidableEq

/-- A NAT-gateway resource configuration (NatGateways.ts). -/
structure NatGatewayDesc where
  allocationId : String
  subnetId : String
  tagName : String
  deriving Repr, DecidableEq

/-- One element of a route table's `route` list (routeTables.ts); the
optional fields are those the null-override utility knows about. -/
structure RouteDesc where
  cidrBlock : String
  egressOnlyGatewayId : Option String := none
  instanceId : Option String := none
  ipv6CidrBlock : Option String := none
  localGatewayId : Option String := none
  natGatewayId : Option String := none
  networkInterfaceId : Option String := none
  transitGatewayId : Option String := none
  vpcPeeringConnectionId : Option String := none
  gatewayId : Option String := none
  deriving Repr, DecidableEq

/-- A route-table resource configuration together with the overrides applied
to it (`addOverride` calls, as path ↦ value entries where `none` is null). -/
structure RouteTableDesc where
  route : List RouteDesc
  tagName : String
  vpcId : String
  overrides : List (String × Option String) := []
  deriving Repr, DecidableEq

/-- A standalone security-group-rule resource configuration
(applicationLoadBalancer.ts); `selfAttr` models the source's `self` field,
and `overrides` the `addOverride` calls applied to the resource. -/
structure SecurityGroupRuleDesc where
  ruleType : String
  fromPort : Int
  toPort : Int
  protocol : String
  securityGroupId : String
  description : Option String := none
  ipv6CidrBlocks : Option (List String) := none
  prefixListIds : Option (List String) := none
  sourceSecurityGroupId : Option String := none
  selfAttr : Option Bool := none
  cidrBlocks : Option (List String) := none
  overrides : List (String × Option String) := []
  deriving Repr, DecidableEq

/-- One element of a security group's inline `ingress`/`egress` lists. -/
structure SgRuleElementDesc where
  fromPort : Int
  toPort : Int
  protocol : String
  description : Option String := none
  ipv6CidrBlocks : Option (List String) := none
  prefixListIds : Option (List String) := none
  securityGroups : Option (List String) := none
  selfAttr : Option Bool := none
  cidrBlocks : Option (List String) := none
  deriving Repr, DecidableEq

/-- A security-group resource configuration with its overrides. -/
structure SecurityGroupDesc where
  description : Option String := none
  name : String
  ingress : Option (List SgRuleElementDesc) := none
  egress : Option (List SgRuleElementDesc) := none
  tagName : String
  vpcId : String
  overrides : List (String × Option String) := []
  deriving Repr, DecidableEq

/-- The ACM certificate resource configuration (ssl.ts). -/
structure AcmCertificateDesc where
  domainName : String
  subjectAlternativeNames : List String
  validationMethod : String
  tagName : String
  deriving Repr, DecidableEq

/-- A DNS validation record exposed by the SSL construct (ssl.ts). -/
structure DnsRecordDesc where
  name : String
  recordType : String
  value : String
  deriving Repr, DecidableEq

/-- A condition of an IAM policy statement; `varName` models the source's
`variable` field. -/
structure PolicyConditionDesc where
  test : String
  varName : String
  values : List String
  deriving Repr, DecidableEq

/-- One statement of an IAM policy document. -/
structure PolicyStatementDesc where
  effect : String
  principalType : String
  principalIdentifiers : List String
  actions : List String
  resources : List String
  conditions : List PolicyConditionDesc := []
  deriving Repr, DecidableEq

/-- An IAM policy document data source. -/
structure PolicyDocDesc where
  version : String
  statement : List PolicyStatementDesc
  deriving Repr, DecidableEq

/-- The load-balancer access-logs S3 bucket configuration. -/
structure S3BucketDesc where
  acl : String
  bucket : String
  forceDestroy : Bool
  deriving Repr, DecidableEq

/-- The application load balancer resource configuration. -/
structure LbDesc where
  internal : Bool
  loadBalancerType : String
  name : String
  securityGroups : List String
  subnets : List String
  accessLogsEnabled : Bool
  accessLogsBucket : String
  deriving Repr, DecidableEq

/-- The load-balancer target group resource configuration. -/
structure LbTargetGroupDesc where
  name : String
  port : Int
  protocol : String
  targetType : String
  vpcId : String
  deriving Repr, DecidableEq

/-- A listener default action: a direct forward to a target group or an HTTP
redirect. -/
inductive ListenerActionDesc where
  | forwardTo (targetGroupArn : String)
  | redirect (port : String) (protocol : String) (statusCode : String)
  deriving Repr, DecidableEq

/-- A load-balancer listener resource configuration. -/
structure LbListenerDesc where
  certificateArn : Option String := none
  defaultAction : List ListenerActionDesc
  loadBalancerArn : String
  port : Int
  protocol : String
  deriving Repr, DecidableEq

/-- A resource descriptor emitted by the network composition unit, tagged by
resource kind, in the order the `NetworkConstruct` constructor creates it. -/
inductive NetworkResource where
  | vpcRes (d : VpcDesc)
  | internetGatewayRes (tagName : String) (vpcId : String)
  | privateSubnetRes (d : SubnetDesc)
  | publicSubnetRes (d : SubnetDesc)
  | elasticIpRes (d : EipDesc)
  | natGatewayRes (d : NatGatewayDesc)
  | routeTableRes (d : RouteTableDesc)
  | routeTableAssociationRes (routeTableId : String) (subnetId : String)
  | acmCertificateRes (d : AcmCertificateDesc)
  | securityGroupRes (d : SecurityGroupDesc)
  | securityGroupRuleRes (d : SecurityGroupRuleDesc)
  | s3BucketRes (d : S3BucketDesc)
  | policyDocumentRes (d : PolicyDocDesc)
  | s3BucketPolicyRes (bucket : String) (policy : PolicyDocDesc)
  | lbRes (d : LbDesc)
  | lbTargetGroupRes (d : LbTargetGroupDesc)
  | lbListenerRes (d : LbListenerDesc)
  deriving Repr, DecidableEq

/-! ## Null-override utilities (src/utils/overrideNullValuesFor*.ts) -/

/-- The optional fields of a security-group-rule resource known to
`overrideNullValuesForSecurityGroupRule`, as (terraform name, accessor,
truthiness) triples, in the source's order. -/
def securityGroupRuleOptionalFields :
    List (String × (SecurityGroupRuleDesc → Bool)) :=
  [("description", fun r => truthyStr r.description),
   ("ipv6_cidr_blocks", fun r => truthyList r.ipv6CidrBlocks),
   ("prefix_list_ids", fun r => truthyList r.prefixListIds),
   ("source_security_group_id", fun r => truthyStr r.sourceSecurityGroupId),
   ("self", fun r => truthyBool r.selfAttr),
   ("cidr_blocks", fun r => truthyList r.cidrBlocks)]

/-- Adds missing "null" values to a security group rule
(overrideNullValuesForSecurityGroupRule.ts). -/
def overrideNullValuesForSecurityGroupRule (securityGroupRule : SecurityGroupRuleDesc) :
    SecurityGroupRuleDesc :=
  { securityGroupRule with
    overrides := securityGroupRule.overrides ++
      securityGroupRuleOptionalFields.filterMap fun p =>
        if p.2 securityGroupRule then none else some (p.1, none) }

/-- The optional fields of an inline ingress/egress security-group rule known
to `overrideNullValuesForSecurityGroup` (builds.ts tail), in source order. -/
def securityGroupElementOptionalFields :
    List (String × (SgRuleElementDesc → Bool)) :=
  [("description", fun r => truthyStr r.description),
   ("ipv6_cidr_blocks", fun r => truthyList r.ipv6CidrBlocks),
   ("prefix_list_ids", fun r => truthyList r.prefixListIds),
   ("security_groups", fun r => truthyList r.securityGroups),
   ("self", fun r => truthyBool r.selfAttr),
   ("cidr_blocks", fun r => truthyList r.cidrBlocks)]

/-- The overrides `overrideNullValuesForSecurityGroup` adds for one inline
rule list (`kind` is "ingress" or "egress"); the `?.length` guard of the
source skips an absent or empty list. -/
def securityGroupListOverrides (kind : String) :
    Option (List SgRuleElementDesc) → List (String × Option String)
  | none => []
  | some l =>
    l.enum.flatMap fun p =>
      securityGroupElementOptionalFields.filterMap fun f =>
        if f.2 p.2 then none
        else some (kind ++ "." ++ toString p.1 ++ "." ++ f.1, none)

/-- Adds missing "null" values to a security group's inline rules
(overrideNullValuesForSecurityGroup in the builds source). -/
def overrideNullValuesForSecurityGroup (securityGroup : SecurityGroupDesc) :
    SecurityGroupDesc :=
  { securityGroup with
    overrides := securityGroup.overrides ++
      securityGroupListOverrides "ingress" securityGroup.ingress ++
      securityGroupListOverrides "egress" securityGroup.egress }

/-- The optional fields of a route known to `overrideNullValuesForRouteTable`
(builds.ts tail), in source order. -/
def routeOptionalFields : List (String × (RouteDesc → Bool)) :=
  [("egress_only_gateway_id", fun r => truthyStr r.egressOnlyGatewayId),
   ("instance_id", fun r => truthyStr r.instanceId),
   ("ipv6_cidr_block", fun r => truthyStr r.ipv6CidrBlock),
   ("local_gateway_id", fun r => truthyStr r.localGatewayId),
   ("nat_gateway_id", fun r => truthyStr r.natGatewayId),
   ("network_interface_id", fun r => truthyStr r.networkInterfaceId),
   ("transit_gateway_id", fun r => truthyStr r.transitGatewayId),
   ("vpc_peering_connection_id", fun r => truthyStr r.vpcPeeringConnectionId),
   ("gateway_id", fun r => truthyStr r.gatewayId)]

/-- Adds missing "null" values to a route table's routes
(overrideNullValuesForRouteTable in the builds source). -/
def overrideNullValuesForRouteTable (routeTable : RouteTableDesc) : RouteTableDesc :=
  { routeTable with
    overrides := routeTable.overrides ++
      routeTable.route.enum.flatMap fun p =>
        routeOptionalFields.filterMap fun f =>
          if f.2 p.2 then none
          else some ("route." ++ toString p.1 ++ "." ++ f.1, none) }

/-! ## Network composition functions -/

/-- The VPC construct (vpc.ts). -/
def vpcConstruct (resourceNamesPrefix : String) : VpcDesc :=
  { cidrBlock := "10.0.0.0/16"
    enableDnsSupport := true
    enableDnsHostnames := true
    tagName := resourceNamesPrefix ++ "_vpc" }

/-- The subnets construct (subnets.ts): N private subnets and max(N, 2)
public subnets, where N is the configured availability-zone count. -/
def subnetsConstruct (numberOfAvailabilityZonesUsed : Nat)
    (azNamesFqn vpcCidrBlock vpcId resourceNamesPrefix : String) :
    List SubnetDesc × List SubnetDesc :=
  let privateSubnets := (List.range numberOfAvailabilityZonesUsed).map fun i =>
    { availabilityZone := tfRef (azNamesFqn ++ ".names[" ++ toString i ++ "]")
      cidrBlock := tfRef ("cidrsubnet(\"" ++ vpcCidrBlock ++ "\", 8, " ++ toString i ++ ")")
      vpcId := vpcId
      tagName := resourceNamesPrefix ++ "_private_subnet_" ++ toString (i + 1)
      mapPublicIpOnLaunch := false }
  let publicSubnets := (List.range (max numberOfAvailabilityZonesUsed 2)).map fun i =>
    { availabilityZone := tfRef (azNamesFqn ++ ".names[" ++ toString i ++ "]")
      cidrBlock := tfRef ("cidrsubnet(\"" ++ vpcCidrBlock ++ "\", 8, " ++ toString (i + 128) ++ ")")
      vpcId := vpcId
      tagName := resourceNamesPrefix ++ "_public_subnet_" ++ toString (i + 1)
      mapPublicIpOnLaunch := true }
  (privateSubnets, publicSubnets)

/-- The elastic-IPs construct (elasticIps.ts): one elastic IP per configured
availability zone. -/
def elasticIpsConstruct (numberOfAvailabilityZonesUsed : Nat)
    (resourceNamesPrefix : String) : List EipDesc :=
  (List.range numberOfAvailabilityZonesUsed).map fun i =>
    { tagName := resourceNamesPrefix ++ "_elastic_ip_for_nat_gateway_" ++ toString (i + 1)
      vpc := true }

/-- The NAT-gateways construct (NatGateways.ts): guards that enough elastic
IPs and public subnets exist, then creates one NAT gateway per configured
availability zone, pairing the i-th elastic IP with the i-th public subnet.
Resource references (`.id` tokens) are passed as id-string lists. -/
def natGatewaysConstruct (elasticIpIds publicSubnetIds : List String)
    (numberOfAvailabilityZonesUsed : Nat) (resourceNamesPrefix : String) :
    Except String (List NatGatewayDesc) :=
  if elasticIpIds.length < numberOfAvailabilityZonesUsed then
    .error "The number of availability zones used must match the number of elastic IPs"
  else if publicSubnetIds.length < numberOfAvailabilityZonesUsed then
    .error "The number of availability zones used must match the number of public subnets"
  else
    .ok <| (List.range numberOfAvailabilityZonesUsed).map fun i =>
      { allocationId := elasticIpIds.getD i ""
        subnetId := publicSubnetIds.getD i ""
        tagName := resourceNamesPrefix ++ "_nat_gateway_" ++ toString (i + 1) }

/-- The route-tables construct (routeTables.ts): guards that the NAT-gateway
count matches the private-subnet count, then emits the public route table,
its associations, the per-private-subnet route tables and their
associations, each route table passed through the null-override utility. -/
def routeTablesConstruct (natGatewayIds privateSubnetIds publicSubnetIds : List String)
    (internetGatewayId vpcId resourceNamesPrefix : String) :
    Except String (List NetworkResource) :=
  if natGatewayIds.length ≠ privateSubnetIds.length then
    .error "The number of NAT gateways must match the number of private subnets"
  else
    let publicSubnetsRouteTable := overrideNullValuesForRouteTable
      { route := [{ cidrBlock := "0.0.0.0/0", gatewayId := some internetGatewayId }]
        tagName := resourceNamesPrefix ++ "_route_table_for_public_subnets"
        vpcId := vpcId }
    let publicAssociations := publicSubnetIds.map fun subnetId =>
      NetworkResource.routeTableAssociationRes (tfRef "public_subnets_route_table.id") subnetId
    let privateSubnetsRouteTables := privateSubnetIds.enum.map fun p =>
      overrideNullValuesForRouteTable
        { route := [{ cidrBlock := "0.0.0.0/0", natGatewayId := some (natGatewayIds.getD p.1 "") }]
          tagName := resourceNamesPrefix ++ "_route_table_for_private_subnet_" ++ toString (p.1 + 1)
          vpcId := vpcId }
    let privateAssociations := privateSubnetIds.enum.map fun p =>
      NetworkResource.routeTableAssociationRes
        (tfRef ("private_subnets_route_table_" ++ toString (p.1 + 1) ++ ".id")) p.2
    .ok <| NetworkResource.routeTableRes publicSubnetsRouteTable :: publicAssociations
      ++ privateSubnetsRouteTables.map NetworkResource.routeTableRes
      ++ privateAssociations

/-- The SSL construct (ssl.ts): throws if no domain name is supplied, before
the ACM certificate descriptor is created; otherwise the first domain is the
certificate's primary name and the rest are alternates, and one DNS
validation record per domain is exposed. -/
def sslConstruct (domainNames : List String) (resourceNamesPrefix : String) :
    Except String (AcmCertificateDesc × List DnsRecordDesc) :=
  match domainNames with
  | [] => .error "You must specify at least one domain name"
  | firstDomain :: alternateDomains =>
    let acmCertificate : AcmCertificateDesc :=
      { domainName := firstDomain
        subjectAlternativeNames := alternateDomains
        validationMethod := "DNS"
        tagName := resourceNamesPrefix ++ "_acm_certificate" }
    let validationDns := domainNames.enum.map fun p =>
      { name := tfRef ("tolist(acm_certificate.domain_validation_options)[\"" ++
          toString p.1 ++ "\"].resource_record_name")
        recordType := tfRef ("tolist(acm_certificate.domain_validation_options)[\"" ++
          toString p.1 ++ "\"].resource_record_type")
        value := tfRef ("tolist(acm_certificate.domain_validation_options)[\"" ++
          toString p.1 ++ "\"].resource_record_value") : DnsRecordDesc }
    .ok (acmCertificate, validationDns)

/-- The AWS account IDs used to store the application load balancer logs
depending on region (applicationLoadBalancer.ts), as the JavaScript object's
key/value pairs. -/
def lbLogsBucketPolicyAccountIdDependingOnRegion : List (String × String) :=
  [("us-east-1", "127311923021"),
   ("us-east-2", "033677994240"),
   ("us-west-1", "027434742980"),
   ("us-west-2", "797873946194"),
   ("af-south-1", "098369216593"),
   ("ca-central-1", "985666609251"),
   ("eu-central-1", "054676820928"),
   ("eu-west-1", "156460612806"),
   ("eu-west-2", "652711504416"),
   ("eu-south-1", "635631232127"),
   ("eu-west-3", "009996457667"),
   ("eu-north-1", "897822967062"),
   ("ap-east-1", "754344448648"),
   ("ap-northeast-1", "582318560864"),
   ("ap-northeast-2", "600734575887"),
   ("ap-northeast-3", "383597477331"),
   ("ap-southeast-1", "114774131450"),
   ("ap-southeast-2", "783225319266"),
   ("ap-south-1", "718504428378"),
   ("me-south-1", "076674570225"),
   ("sa-east-1", "507241528517"),
   ("us-gov-west-1", "048591011584"),
   ("us-gov-east-1", "190560391635"),
   ("cn-north-1", "638102146993"),
   ("cn-northwest-1", "037604701340")]

/-- The properties of the application load balancer construct
(IApplicationLoadBalancerConstructProps). -/
structure ApplicationLoadBalancerProps where
  acmCertificateArn : String
  currentAccountId : String
  currentRegionAsString : String
  enableHttps : Bool
  publicSubnetIds : List String
  resourceNamesPrefix : String
  vpcId : String

/-- The principal ARN of the first statement of the access-logs bucket policy:
the region's log-delivery account id is looked up in the static table, and a
missing region embeds as the literal text "undefined" (JavaScript template
semantics). -/
def lbLogsBucketPolicyPrincipalArn (currentRegionAsString : String) : String :=
  "arn:aws:iam::" ++
    jsEmbed (lbLogsBucketPolicyAccountIdDependingOnRegion.lookup currentRegionAsString) ++
    ":root"

/-- The application load balancer construct (applicationLoadBalancer.ts):
security group, three null-overridden security group rules (the egress rule's
source security group set to a placeholder to break the cycle with the task
security group), access-logs bucket with its region-dependent policy, the
load balancer, its target group, and the two listeners (port 443 always
forwarding, port 80 redirecting to 443 iff HTTPS is enabled). -/
def applicationLoadBalancerConstruct (props : ApplicationLoadBalancerProps) :
    List NetworkResource :=
  let securityGroup : SecurityGroupDesc :=
    { description := some "Allow inbound HTTP/HTTPS traffic to application load balancer"
      name := props.resourceNamesPrefix ++ "_lb_security_group"
      tagName := props.resourceNamesPrefix ++ "_lb_security_group"
      vpcId := props.vpcId }
  let securityGroupId := tfRef "application_load_balancer_security_group.id"
  let httpIngressRule := overrideNullValuesForSecurityGroupRule
    { ruleType := "ingress", fromPort := 80, toPort := 80, protocol := "tcp"
      cidrBlocks := some ["0.0.0.0/0"], securityGroupId := securityGroupId }
  let httpsIngressRule := overrideNullValuesForSecurityGroupRule
    { ruleType := "ingress", fromPort := 443, toPort := 443, protocol := "tcp"
      cidrBlocks := some ["0.0.0.0/0"], securityGroupId := securityGroupId }
  let securityGroupEgressRule := overrideNullValuesForSecurityGroupRule
    { ruleType := "egress", fromPort := 0, toPort := 0, protocol := "-1"
      securityGroupId := securityGroupId
      sourceSecurityGroupId := some "" }
  let logsBucketName := (props.resourceNamesPrefix.replace "_" "-") ++ "-alb-logs-bucket"
  let logsBucket : S3BucketDesc :=
    { acl := "private", bucket := logsBucketName, forceDestroy := true }
  let logsObjectsArn :=
    "arn:aws:s3:::" ++ logsBucketName ++ "/AWSLogs/" ++ props.currentAccountId ++ "/*"
  let logsBucketPolicyDocument : PolicyDocDesc :=
    { version := "2012-10-17"
      statement :=
        [{ effect := "Allow", principalType := "AWS"
           principalIdentifiers := [lbLogsBucketPolicyPrincipalArn props.currentRegionAsString]
           actions := ["s3:PutObject"], resources := [logsObjectsArn] },
         { effect := "Allow", principalType := "Service"
           principalIdentifiers := ["delivery.logs.amazonaws.com"]
           actions := ["s3:PutObject"], resources := [logsObjectsArn]
           conditions := [{ test := "StringEquals", varName := "s3:x-amz-acl"
                            values := ["bucket-owner-full-control"] }] },
         { effect := "Allow", principalType := "Service"
           principalIdentifiers := ["delivery.logs.amazonaws.com"]
           actions := ["s3:GetBucketAcl"]
           resources := ["arn:aws:s3:::" ++ logsBucketName] }] }
  let applicationLoadBalancer : LbDesc :=
    { internal := false
      loadBalancerType := "application"
      name := (props.resourceNamesPrefix.replace "_" "-").take 32
      securityGroups := [securityGroupId]
      subnets := props.publicSubnetIds
      accessLogsEnabled := true
      accessLogsBucket := logsBucketName }
  let targetGroup : LbTargetGroupDesc :=
    { name := (props.resourceNamesPrefix.replace "_" "-").take 32
      port := 80, protocol := "HTTP", targetType := "ip", vpcId := props.vpcId }
  let targetGroupArn := tfRef "application_load_balancer_target_group.arn"
  let lbArn := tfRef "application_load_balancer.arn"
  let httpsListener : LbListenerDesc :=
    { certificateArn := some props.acmCertificateArn
      defaultAction := [.forwardTo targetGroupArn]
      loadBalancerArn := lbArn, port := 443, protocol := "HTTPS" }
  let httpListener : LbListenerDesc :=
    { defaultAction := [if props.enableHttps then
        .redirect "443" "HTTPS" "HTTP_301"
      else
        .forwardTo targetGroupArn]
      loadBalancerArn := lbArn, port := 80, protocol := "HTTP" }
  [.securityGroupRes securityGroup,
   .securityGroupRuleRes httpIngressRule,
   .securityGroupRuleRes httpsIngressRule,
   .securityGroupRuleRes securityGroupEgressRule,
   .s3BucketRes logsBucket,
   .policyDocumentRes logsBucketPolicyDocument,
   .s3BucketPolicyRes logsBucketName logsBucketPolicyDocument,
   .lbRes applicationLoadBalancer,
   .lbTargetGroupRes targetGroup,
   .lbListenerRes httpsListener,
   .lbListenerRes httpListener]

/-- The properties of the network construct (INewtorkProps). -/
structure NetworkProps where
  currentAccountId : String
  currentRegionAsString : String
  domainNames : List String
  enableHttps : Bool
  numberOfAvailabilityZonesUsed : Nat
  resourceNamesPrefix : String

/-- The network composition unit (index.ts of the network constructs): the
trace of resource descriptors it emits in constructor order, and the error of
the first child construct that throws, if any (descriptors created before the
throw stay in the trace). -/
def networkConstruct (props : NetworkProps) : List NetworkResource × Option String :=
  let pfx := props.resourceNamesPrefix
  let vpc := vpcConstruct pfx
  let vpcId := tfRef "vpc.id"
  let internetGatewayId := tfRef "internet_gateway.id"
  let subnets := subnetsConstruct props.numberOfAvailabilityZonesUsed
    "availability_zone" vpc.cidrBlock vpcId pfx
  let elasticIps := elasticIpsConstruct props.numberOfAvailabilityZonesUsed pfx
  let elasticIpIds := (List.range elasticIps.length).map fun i =>
    tfRef ("elastic_ip_" ++ toString (i + 1) ++ ".id")
  let privateSubnetIds := (List.range subnets.1.length).map fun i =>
    tfRef ("private_subnet_" ++ toString (i + 1) ++ ".id")
  let publicSubnetIds := (List.range subnets.2.length).map fun i =>
    tfRef ("public_subnet_" ++ toString (i + 1) ++ ".id")
  let trace := NetworkResource.vpcRes vpc ::
    NetworkResource.internetGatewayRes (pfx ++ "_internet_gateway") vpcId ::
    subnets.1.map NetworkResource.privateSubnetRes ++
    subnets.2.map NetworkResource.publicSubnetRes ++
    elasticIps.map NetworkResource.elasticIpRes
  match natGatewaysConstruct elasticIpIds publicSubnetIds
      props.numberOfAvailabilityZonesUsed pfx with
  | .error e => (trace, some e)
  | .ok natGateways =>
    let natGatewayIds := (List.range natGateways.length).map fun i =>
      tfRef ("nat_gateway_" ++ toString (i + 1) ++ ".id")
    let trace := trace ++ natGateways.map NetworkResource.natGatewayRes
    match routeTablesConstruct natGatewayIds privateSubnetIds publicSubnetIds
        internetGatewayId vpcId pfx with
    | .error e => (trace, some e)
    | .ok routeTableResources =>
      let trace := trace ++ routeTableResources
      match sslConstruct props.domainNames pfx with
      | .error e => (trace, some e)
      | .ok sslOut =>
        let trace := trace ++ [NetworkResource.acmCertificateRes sslOut.1]
        let albResources := applicationLoadBalancerConstruct
          { acmCertificateArn := tfRef "acm_certificate.arn"
            currentAccountId := props.currentAccountId
            currentRegionAsString := props.currentRegionAsString
            enableHttps := props.enableHttps
            publicSubnetIds := publicSubnetIds
            resourceNamesPrefix := pfx
            vpcId := vpcId }
        (trace ++ albResources, none)

/-! ## Configuration input partition (main.ts) -/

/-- Environment-variable names are JavaScript strings, modelled as character
lists; `jsStartsWith pre s` is `s.startsWith(pre)`. -/
def jsStartsWith (pre s : List Char) : Bool := pre.isPrefixOf s

/-- `s.replace(/^pre/, "")`: strips `pre` from the front of `s` when (and
only when) `s` starts with it. -/
def jsStripAnchored (pre s : List Char) : List Char :=
  if pre.isPrefixOf s then s.drop pre.length else s

/-- The application env-var marker `"APPLICATION_"` of main.ts. -/
def applicationEnvMarker : List Char := "APPLICATION_".data

/-- The builds env-var marker `"BUILD_"` of main.ts. -/
def buildsEnvMarker : List Char := "BUILD_".data

/-- Environment variables of the process as ordered (name, value) pairs. -/
abbrev ProcessEnv : Type := List (List Char × String)

/-- main.ts: env names that start with "APPLICATION_" become the application
environment variables, with the marker stripped from their name. -/
def applicationEnvironmentVariablesOf (env : ProcessEnv) : List (List Char × String) :=
  (env.filter fun kv => jsStartsWith applicationEnvMarker kv.1).map fun kv =>
    (jsStripAnchored applicationEnvMarker kv.1, kv.2)

/-- main.ts: env names that start with "BUILD_" become the builds environment
variables, with the marker stripped from their name. -/
def buildsEnvironmentVariablesOf (env : ProcessEnv) : List (List Char × String) :=
  (env.filter fun kv => jsStartsWith buildsEnvMarker kv.1).map fun kv =>
    (jsStripAnchored buildsEnvMarker kv.1, kv.2)

/-! ## Computing data model (src/lib/constructs/computing) -/

/-- An SSM secret-parameter resource configuration
(environmentVariables.ts); `tagName` is the raw environment-variable name
recorded under `tags.name`, and `name` the parameter's path. -/
structure SsmParameterDesc where
  name : List Char
  parameterType : String
  value : String
  tagName : List Char
  deriving Repr, DecidableEq

/-- The environment variables construct (environmentVariables.ts): one
SecureString SSM parameter per application variable (under the
fargate-tasks-env path) and one per builds variable (under the builds-env
path); `esc` is the escapeTemplateForTerraform utility applied to each
value (its source file is not part of the repository snapshot, so it is kept
abstract). -/
def environmentVariablesConstruct (esc : String → String)
    (buildsEnvironmentVariables environmentVariables : List (List Char × String))
    (resourceNamesPrefix : String) :
    List SsmParameterDesc × List SsmParameterDesc :=
  let applicationParameters := environmentVariables.map fun kv =>
    { name := ("/" ++ resourceNamesPrefix ++ "/fargate-tasks-env/").data ++ kv.1
      parameterType := "SecureString"
      value := esc kv.2
      tagName := kv.1 : SsmParameterDesc }
  let buildsParameters := buildsEnvironmentVariables.map fun kv =>
    { name := ("/" ++ resourceNamesPrefix ++ "/builds-env/").data ++ kv.1
      parameterType := "SecureString"
      value := esc kv.2
      tagName := kv.1 : SsmParameterDesc }
  (applicationParameters, buildsParameters)

/-- An ECS task definition resource configuration (tasks.ts); the container
definitions JSON blob is not needed by any claim and is recorded only through
the definition family and sizing fields. -/
structure TaskDefinitionDesc where
  cpu : String
  executionRoleArn : String
  family : String
  memory : String
  networkMode : String
  requiresCompatibilities : List String
  deriving Repr, DecidableEq

/-- The ECS service resource configuration (cluster.ts ServiceConstruct). -/
structure ServiceDesc where
  cluster : String
  name : String
  desiredCount : Int
  healthCheckGracePeriodSeconds : Int
  deploymentMaximumPercent : Int
  deploymentMinimumHealthyPercent : Int
  launchType : String
  platformVersion : String
  loadBalancerContainerName : String
  loadBalancerContainerPort : Int
  loadBalancerTargetGroupArn : String
  assignPublicIp : Bool
  securityGroups : List String
  subnets : List String
  taskDefinition : String
  ignoreChanges : List String
  deriving Repr, DecidableEq

/-- The application-auto-scaling target resource configuration
(autoScaling.ts). -/
structure AppautoscalingTargetDesc where
  maxCapacity : Int
  minCapacity : Int
  resourceId : String
  scalableDimension : String
  serviceNamespace : String
  deriving Repr, DecidableEq

/-- An application-auto-scaling target-tracking policy resource configuration
(autoScaling.ts). -/
structure AppautoscalingPolicyDesc where
  name : String
  policyType : String
  resourceId : String
  scalableDimension : String
  serviceNamespace : String
  predefinedMetricType : String
  scaleInCooldown : Int
  scaleOutCooldown : Int
  targetValue : Int
  deriving Repr, DecidableEq

/-- A resource descriptor emitted by the computing composition unit, in the
order the `ComputingConstruct` constructor creates it; IAM policy documents,
roles and role policies are recorded by their identifying name. -/
inductive ComputingResource where
  | cloudwatchLogGroupRes (name : String)
  | ssmApplicationParameterRes (d : SsmParameterDesc)
  | ssmBuildsParameterRes (d : SsmParameterDesc)
  | ecsClusterRes (name : String)
  | ecrRepositoryRes (name : String)
  | iamPolicyDocumentRes (name : String)
  | iamRoleRes (name : String)
  | iamRolePolicyRes (name : String)
  | securityGroupRes (d : SecurityGroupDesc)
  | ecsTaskDefinitionRes (d : TaskDefinitionDesc)
  | dataEcsTaskDefinitionRes (taskDefinition : String)
  | ecsServiceRes (d : ServiceDesc)
  | appautoscalingTargetRes (d : AppautoscalingTargetDesc)
  | appautoscalingPolicyRes (d : AppautoscalingPolicyDesc)
  deriving Repr, DecidableEq

/-- The properties of the service construct (IServiceConstructProps), with
resource references as token strings. -/
structure ServiceProps where
  clusterId : String
  containerListenPort : Int
  containerName : String
  currentTaskDefinitionFqn : String
  mainTaskDefinitionFamily : String
  mainTaskDefinitionFqn : String
  minimumNumberOfRunningTasks : Int
  privateSubnetIds : List String
  resourceNamesPrefix : String
  tasksSecurityGroupId : String
  targetGroupArn : String

/-- The service construct (cluster.ts ServiceConstruct): throws when fewer
than one running task is requested; otherwise emits the Fargate service whose
task-definition field is the deferred Terraform formula
`family:${max(main.revision, current.revision)}`. -/
def serviceConstruct (props : ServiceProps) : Except String ServiceDesc :=
  if props.minimumNumberOfRunningTasks < 1 then
    .error "Your Fargate cluster must run at least one task"
  else
    .ok
      { cluster := props.clusterId
        name := props.resourceNamesPrefix ++ "_fargate_service"
        desiredCount := props.minimumNumberOfRunningTasks
        healthCheckGracePeriodSeconds := 240
        deploymentMaximumPercent := 200
        deploymentMinimumHealthyPercent := 100
        launchType := "FARGATE"
        platformVersion := "1.4.0"
        loadBalancerContainerName := props.containerName
        loadBalancerContainerPort := props.containerListenPort
        loadBalancerTargetGroupArn := props.targetGroupArn
        assignPublicIp := false
        securityGroups := [props.tasksSecurityGroupId]
        subnets := props.privateSubnetIds
        taskDefinition := props.mainTaskDefinitionFamily ++ ":" ++
          tfRef ("max(" ++ props.mainTaskDefinitionFqn ++ ".revision, " ++
            props.currentTaskDefinitionFqn ++ ".revision)")
        ignoreChanges := ["desired_count"] }

/-- The properties of the auto-scaling construct (IAutoScalingProps). -/
structure AutoScalingProps where
  clusterName : String
  cpuLimitPercent : Int
  maximumNumberOfRunningTasks : Int
  memoryLimitPercent : Int
  minimumNumberOfRunningTasks : Int
  resourceNamesPrefix : String
  serviceName : String

/-- The auto-scaling construct (autoScaling.ts): validates the memory and CPU
limits (1..100) and the task-count bounds before creating any resource, then
emits the scaling target and the CPU and memory target-tracking policies,
both with 300-second scale-in/scale-out cooldowns and the configured limits
as target values. -/
def autoScalingConstruct (props : AutoScalingProps) :
    Except String (AppautoscalingTargetDesc × AppautoscalingPolicyDesc × AppautoscalingPolicyDesc) :=
  if props.memoryLimitPercent < 1 ∨ props.memoryLimitPercent > 100 then
    .error "Memory limit must be comprised between 1 and 100"
  else if props.cpuLimitPercent < 1 ∨ props.cpuLimitPercent > 100 then
    .error "CPU limit must be comprised between 1 and 100"
  else if props.minimumNumberOfRunningTasks < 1 ∨ props.maximumNumberOfRunningTasks < 1 then
    .error "Your Fargate cluster must run at least one task"
  else
    let fargateAutoScalingTarget : AppautoscalingTargetDesc :=
      { maxCapacity := props.maximumNumberOfRunningTasks
        minCapacity := props.minimumNumberOfRunningTasks
        resourceId := "service/" ++ props.clusterName ++ "/" ++ props.serviceName
        scalableDimension := "ecs:service:DesiredCount"
        serviceNamespace := "ecs" }
    let cpuPolicy : AppautoscalingPolicyDesc :=
      { name := props.resourceNamesPrefix ++ "_fargate_auto_scaling_cpu_policy"
        policyType := "TargetTrackingScaling"
        resourceId := fargateAutoScalingTarget.resourceId
        scalableDimension := fargateAutoScalingTarget.scalableDimension
        serviceNamespace := fargateAutoScalingTarget.serviceNamespace
        predefinedMetricType := "ECSServiceAverageCPUUtilization"
        scaleInCooldown := 300
        scaleOutCooldown := 300
        targetValue := props.cpuLimitPercent }
    let memoryPolicy : AppautoscalingPolicyDesc :=
      { name := props.resourceNamesPrefix ++ "_fargate_auto_scaling_memory_policy"
        policyType := "TargetTrackingScaling"
        resourceId := fargateAutoScalingTarget.resourceId
        scalableDimension := fargateAutoScalingTarget.scalableDimension
        serviceNamespace := fargateAutoScalingTarget.serviceNamespace
        predefinedMetricType := "ECSServiceAverageMemoryUtilization"
        scaleInCooldown := 300
        scaleOutCooldown := 300
        targetValue := props.memoryLimitPercent }
    .ok (fargateAutoScalingTarget, cpuPolicy, memoryPolicy)

/-- The properties of the computing construct (IComputingConstructProps);
cross-unit resource references are the token strings the parent passes. -/
structure ComputingProps where
  applicationLoadBalancerSecurityGroupId : String
  applicationLoadBalancerTargetGroupArn : String
  autoScalingCpuLimitPercent : Int
  autoScalingMemoryLimitPercent : Int
  buildsEnvironmentVariables : List (List Char × String)
  containerListenPort : Int
  containerName : String
  currentAccountId : String
  currentRegionName : String
  dockerImageName : String
  enableAutoScaling : Bool
  environmentVariables : List (List Char × String)
  fargateTasksCpu : String
  fargateTasksMemory : String
  maximumNumberOfRunningFargateTasks : Int
  minimumNumberOfRunningFargateTasks : Int
  preDeployCommand : String
  privateSubnetIds : List String
  resourceNamesPrefix : String
  vpcId : String

/-- The tasks construct (tasks.ts): assume-role policy document, execution
role, execution-role policy document and role policy, the null-overridden
Fargate tasks security group, the main and pre-deploy task definitions, and
the current-task-definition data source, in creation order. -/
def tasksConstruct (props : ComputingProps) : List ComputingResource :=
  let pfx := props.resourceNamesPrefix
  let securityGroup := overrideNullValuesForSecurityGroup
    { description := some "Allow inbound access from the application load balancer only"
      egress := some [{ fromPort := 0, toPort := 0, protocol := "-1"
                        cidrBlocks := some ["0.0.0.0/0"] }]
      ingress := some [{ fromPort := 0, toPort := 0, protocol := "-1"
                         securityGroups := some [props.applicationLoadBalancerSecurityGroupId] }]
      name := pfx ++ "_fargate_tasks_security_group"
      tagName := pfx ++ "_fargate_tasks_security_group"
      vpcId := props.vpcId }
  let executionRoleArn := tfRef "fargate_tasks_execution_role.arn"
  let mainDefinition : TaskDefinitionDesc :=
    { cpu := props.fargateTasksCpu
      executionRoleArn := executionRoleArn
      family := pfx ++ "_fargate_tasks"
      memory := props.fargateTasksMemory
      networkMode := "awsvpc"
      requiresCompatibilities := ["FARGATE"] }
  let preDeployDefinition : TaskDefinitionDesc :=
    { cpu := props.fargateTasksCpu
      executionRoleArn := executionRoleArn
      family := pfx ++ "_fargate_pre_deploy_task"
      memory := props.fargateTasksMemory
      networkMode := "awsvpc"
      requiresCompatibilities := ["FARGATE"] }
  [.iamPolicyDocumentRes "fargate_tasks_assume_role_policy",
   .iamRoleRes (pfx ++ "_fargate_tasks_execution_role"),
   .iamPolicyDocumentRes "fargate_tasks_execution_role_policy_document",
   .iamRolePolicyRes (pfx ++ "_fargate_tasks_execution_role_policy"),
   .securityGroupRes securityGroup,
   .ecsTaskDefinitionRes mainDefinition,
   .ecsTaskDefinitionRes preDeployDefinition,
   .dataEcsTaskDefinitionRes mainDefinition.family]

/-- The computing composition unit (index.ts of the computing constructs):
the trace of resource descriptors in constructor order — log group,
environment-variable parameters, cluster, repository, tasks resources,
service — and, only when auto-scaling is enabled, the auto-scaling resources;
the error of the first child construct that throws is returned alongside the
descriptors already produced at that point. -/
def computingConstruct (esc : String → String) (props : ComputingProps) :
    List ComputingResource × Option String :=
  let pfx := props.resourceNamesPrefix
  let containersLogsGroupName := pfx ++ "_fargate_containers"
  let environmentVariables := environmentVariablesConstruct esc
    props.buildsEnvironmentVariables props.environmentVariables pfx
  let clusterName := pfx ++ "_fargate_cluster"
  let repositoryName := pfx ++ "_ecr_repository/" ++ props.dockerImageName
  let tasksResources := tasksConstruct props
  let trace := ComputingResource.cloudwatchLogGroupRes containersLogsGroupName ::
    environmentVariables.1.map ComputingResource.ssmApplicationParameterRes ++
    environmentVariables.2.map ComputingResource.ssmBuildsParameterRes ++
    [ComputingResource.ecsClusterRes clusterName,
     ComputingResource.ecrRepositoryRes repositoryName] ++
    tasksResources
  match serviceConstruct
      { clusterId := tfRef "fargate_cluster.id"
        containerListenPort := props.containerListenPort
        containerName := props.containerName
        currentTaskDefinitionFqn := "current_main_fargate_tasks_definition"
        mainTaskDefinitionFamily := pfx ++ "_fargate_tasks"
        mainTaskDefinitionFqn := "main_fargate_tasks_definition"
        minimumNumberOfRunningTasks := props.minimumNumberOfRunningFargateTasks
        privateSubnetIds := props.privateSubnetIds
        resourceNamesPrefix := pfx
        tasksSecurityGroupId := tfRef "fargate_tasks_security_group.id"
        targetGroupArn := props.applicationLoadBalancerTargetGroupArn } with
  | .error e => (trace, some e)
  | .ok service =>
    let trace := trace ++ [ComputingResource.ecsServiceRes service]
    if props.enableAutoScaling then
      match autoScalingConstruct
          { clusterName := clusterName
            cpuLimitPercent := props.autoScalingCpuLimitPercent
            maximumNumberOfRunningTasks := props.maximumNumberOfRunningFargateTasks
            memoryLimitPercent := props.autoScalingMemoryLimitPercent
            minimumNumberOfRunningTasks := props.minimumNumberOfRunningFargateTasks
            resourceNamesPrefix := pfx
            serviceName := service.name } with
      | .error e => (trace, some e)
      | .ok autoScaling =>
        (trace ++ [ComputingResource.appautoscalingTargetRes autoScaling.1,
                   ComputingResource.appautoscalingPolicyRes autoScaling.2.1,
                   ComputingResource.appautoscalingPolicyRes autoScaling.2.2], none)
    else (trace, none)

/-- The CodeBuild security group created by the builds construct
(continuousDeployment/builds.ts line 97), passed through the null-override
utility; the rest of that construct creates no security-group,
security-group-rule or route-table descriptor. -/
def buildsConstructSecurityGroup (resourceNamesPrefix vpcId : String) : SecurityGroupDesc :=
  overrideNullValuesForSecurityGroup
    { description := some "Allow outbound access to CodeBuild from our vpc"
      egress := some [{ cidrBlocks := some ["0.0.0.0/0"]
                        fromPort := 0, protocol := "-1", toPort := 0 }]
      name := resourceNamesPrefix ++ "_codebuild_security_group"
      tagName := resourceNamesPrefix ++ "_codebuild_security_group"
      vpcId := vpcId }

/-! ## Predicates over emitted descriptors -/

/-- Whether a network resource is a private subnet descriptor. -/
def NetworkResource.isPrivateSubnet : NetworkResource → Bool
  | .privateSubnetRes _ => true
  | _ => false

/-- Whether a network resource is a public subnet descriptor. -/
def NetworkResource.isPublicSubnet : NetworkResource → Bool
  | .publicSubnetRes _ => true
  | _ => false

/-- Whether a network resource is an elastic-IP descriptor. -/
def NetworkResource.isElasticIp : NetworkResource → Bool
  | .elasticIpRes _ => true
  | _ => false

/-- Whether a network resource is a NAT-gateway descriptor. -/
def NetworkResource.isNatGateway : NetworkResource → Bool
  | .natGatewayRes _ => true
  | _ => false

/-- Whether a network resource is a load-balancer listener descriptor. -/
def NetworkResource.isListener : NetworkResource → Bool
  | .lbListenerRes _ => true
  | _ => false

/-- Whether a network resource is an ACM certificate descriptor. -/
def NetworkResource.isAcmCertificate : NetworkResource → Bool
  | .acmCertificateRes _ => true
  | _ => false

/-- Whether a computing resource belongs to the auto-scaling construct. -/
def ComputingResource.isAutoScaling : ComputingResource → Bool
  | .appautoscalingTargetRes _ => true
  | .appautoscalingPolicyRes _ => true
  | _ => false

/-- A JavaScript optional list read as a list (`undefined` reads as no
elements). -/
def jsList {α : Type} : Option (List α) → List α
  | none => []
  | some l => l

/-- Every optional field of the known set of a standalone security-group rule
is truthy or carries an explicit null override. -/
def ruleFullySpecified (d : SecurityGroupRuleDesc) : Prop :=
  ∀ f ∈ securityGroupRuleOptionalFields,
    f.2 d = true ∨ (f.1, (none : Option String)) ∈ d.overrides

/-- Every optional field of the known set of every inline ingress/egress rule
of a security group is truthy or carries an explicit null override. -/
def sgElementsFullySpecified (d : SecurityGroupDesc) : Prop :=
  (∀ p ∈ (jsList d.ingress).enum, ∀ f ∈ securityGroupElementOptionalFields,
    f.2 p.2 = true ∨
      ("ingress." ++ toString p.1 ++ "." ++ f.1, (none : Option String)) ∈ d.overrides) ∧
  (∀ p ∈ (jsList d.egress).enum, ∀ f ∈ securityGroupElementOptionalFields,
    f.2 p.2 = true ∨
      ("egress." ++ toString p.1 ++ "." ++ f.1, (none : Option String)) ∈ d.overrides)

/-- Every optional field of the known set of every route of a route table is
truthy or carries an explicit null override. -/
def routeTableFullySpecified (d : RouteTableDesc) : Prop :=
  ∀ p ∈ d.route.enum, ∀ f ∈ routeOptionalFields,
    f.2 p.2 = true ∨
      ("route." ++ toString p.1 ++ "." ++ f.1, (none : Option String)) ∈ d.overrides

/-- The null-normalization invariant for a network resource: security-group,
security-group-rule and route-table descriptors are fully specified; other
resource kinds are unconstrained. -/
def NetworkResource.NullNormalized : NetworkResource → Prop
  | .securityGroupRuleRes d => ruleFullySpecified d
  | .routeTableRes d => routeTableFullySpecified d
  | .securityGroupRes d => sgElementsFullySpecified d
  | _ => True

/-- The null-normalization invariant for a computing resource. -/
def ComputingResource.NullNormalized : ComputingResource → Prop
  | .securityGroupRes d => sgElementsFullySpecified d
  | _ => True

/-- Whether an `Except`-modelled construct threw. -/
def isThrown {α : Type} : Except String α → Bool
  | .error _ => true
  | .ok _ => false

/-- Whether a network resource is an IAM policy document data source. -/
def NetworkResource.isPolicyDocument : NetworkResource → Bool
  | .policyDocumentRes _ => true
  | _ => false

/-- The listener descriptors among a network-resource trace. -/
def networkListeners (l : List NetworkResource) : List LbListenerDesc :=
  l.filterMap fun r => match r with
    | .lbListenerRes d => some d
    | _ => none

/-- The task-definition field as the specification describes it: the task
family name followed by the deferred maximum of the main and currently
registered task-definition revisions (a Terraform-time formula, not a
synthesis-time value). -/
def specTaskDefinitionFormula (family mainFqn currentFqn : String) : String :=
  family ++ ":" ++ tfRef ("max(" ++ mainFqn ++ ".revision, " ++ currentFqn ++ ".revision)")

/-- A concrete network configuration used to instantiate the universally
quantified theorems: one availability zone, one domain name. -/
def networkPropsExample : NetworkProps :=
  { currentAccountId := "000000000000"
    currentRegionAsString := "eu-west-3"
    domainNames := ["example.com"]
    enableHttps := false
    numberOfAvailabilityZonesUsed := 1
    resourceNamesPrefix := "scaffold" }

/-- The network configuration with an empty domain list. -/
def networkPropsNoDomains : NetworkProps :=
  { networkPropsExample with domainNames := [] }

/-- A concrete load-balancer configuration whose region is absent from the
static region → account-id table. -/
def albPropsUnknownRegion : ApplicationLoadBalancerProps :=
  { acmCertificateArn := "arn:cert"
    currentAccountId := "000000000000"
    currentRegionAsString := "eu-central-2"
    enableHttps := true
    publicSubnetIds := ["subnet-1", "subnet-2"]
    resourceNamesPrefix := "scaffold"
    vpcId := "vpc-1" }

/-- A concrete computing configuration with auto-scaling enabled and both
limits at the 75% the entrypoint hardcodes. -/
def computingPropsAutoScalingOn : ComputingProps :=
  { applicationLoadBalancerSecurityGroupId := "sg-alb"
    applicationLoadBalancerTargetGroupArn := "arn:tg"
    autoScalingCpuLimitPercent := 75
    autoScalingMemoryLimitPercent := 75
    buildsEnvironmentVariables := [("TOKEN".data, "secret")]
    containerListenPort := 8080
    containerName := "main"
    currentAccountId := "000000000000"
    currentRegionName := "eu-west-3"
    dockerImageName := "main"
    enableAutoScaling := true
    environmentVariables := [("DATABASE_URL".data, "postgres://db")]
    fargateTasksCpu := "256"
    fargateTasksMemory := "512"
    maximumNumberOfRunningFargateTasks := 2
    minimumNumberOfRunningFargateTasks := 1
    preDeployCommand := "echo No pre-deploy command"
    privateSubnetIds := ["subnet-private-1"]
    resourceNamesPrefix := "scaffold"
    vpcId := "vpc-1" }

/-- The same computing configuration with a CPU limit of 101, outside the
[1,100] range. -/
def computingPropsOutOfRange : ComputingProps :=
  { computingPropsAutoScalingOn with autoScalingCpuLimitPercent := 101 }

/-- The out-of-range configuration with auto-scaling disabled. -/
def computingPropsOutOfRangeDisabled : ComputingProps :=
  { computingPropsOutOfRange with enableAutoScaling := false }

/-- A concrete service configuration requesting zero running tasks. -/
def servicePropsZeroTasks : ServiceProps :=
  { clusterId := "cluster-1"
    containerListenPort := 8080
    containerName := "main"
    currentTaskDefinitionFqn := "current_main_fargate_tasks_definition"
    mainTaskDefinitionFamily := "scaffold_fargate_tasks"
    mainTaskDefinitionFqn := "main_fargate_tasks_definition"
    minimumNumberOfRunningTasks := 0
    privateSubnetIds := ["subnet-private-1"]
    resourceNamesPrefix := "scaffold"
    tasksSecurityGroupId := "sg-tasks"
    targetGroupArn := "arn:tg" }

/-- The service configuration requesting one running task. -/
def servicePropsOneTask : ServiceProps :=
  { servicePropsZeroTasks with minimumNumberOfRunningTasks := 1 }

/-- A concrete auto-scaling configuration requesting zero running tasks. -/
def autoScalingPropsZeroTasks : AutoScalingProps :=
  { clusterName := "scaffold_fargate_cluster"
    cpuLimitPercent := 75
    maximumNumberOfRunningTasks := 2
    memoryLimitPercent := 75
    minimumNumberOfRunningTasks := 0
    resourceNamesPrefix := "scaffold"
    serviceName := "scaffold_fargate_service" }

/-! ## Helper lemmas -/

/-- The security-group-rule null-override utility leaves every known optional
field truthy or explicitly nulled. -/
theorem ruleFullySpecified_of_override (r : SecurityGroupRuleDesc) :
    ruleFullySpecified (overrideNullValuesForSecurityGroupRule r) := by
  intro f hf
  have hsame : f.2 (overrideNullValuesForSecurityGroupRule r) = f.2 r := by
    simp only [securityGroupRuleOptionalFields, List.mem_cons, List.not_mem_nil, or_false] at hf
    rcases hf with rfl | rfl | rfl | rfl | rfl | rfl <;> rfl
  by_cases h : f.2 r = true
  · exact Or.inl (hsame.trans h)
  · refine Or.inr ?_
    simp only [overrideNullValuesForSecurityGroupRule, List.mem_append]
    exact Or.inr (List.mem_filterMap.mpr ⟨f, hf, by simp [Bool.not_eq_true] at h; simp [h]⟩)

/-- The security-group null-override utility leaves every known optional field
of every inline rule truthy or explicitly nulled. -/
theorem sgElementsFullySpecified_of_override (sg : SecurityGroupDesc) :
    sgElementsFullySpecified (overrideNullValuesForSecurityGroup sg) := by
  constructor
  · intro p hp f hf
    by_cases h : f.2 p.2 = true
    · exact Or.inl h
    · refine Or.inr ?_
      simp only [overrideNullValuesForSecurityGroup, List.mem_append]
      refine Or.inl (Or.inr ?_)
      simp only [overrideNullValuesForSecurityGroup] at hp
      cases hsg : sg.ingress with
      | none => rw [hsg] at hp; simp [jsList] at hp
      | some l =>
        rw [hsg] at hp
        simp only [securityGroupListOverrides]
        refine List.mem_flatMap.mpr ⟨p, ?_, ?_⟩
        · simpa [jsList] using hp
        · exact List.mem_filterMap.mpr ⟨f, hf, by simp [Bool.not_eq_true] at h; simp [h]⟩
  · intro p hp f hf
    by_cases h : f.2 p.2 = true
    · exact Or.inl h
    · refine Or.inr ?_
      simp only [overrideNullValuesForSecurityGroup, List.mem_append]
      refine Or.inr ?_
      simp only [overrideNullValuesForSecurityGroup] at hp
      cases hsg : sg.egress with
      | none => rw [hsg] at hp; simp [jsList] at hp
      | some l =>
        rw [hsg] at hp
        simp only [securityGroupListOverrides]
        refine List.mem_flatMap.mpr ⟨p, ?_, ?_⟩
        · simpa [jsList] using hp
        · exact List.mem_filterMap.mpr ⟨f, hf, by simp [Bool.not_eq_true] at h; simp [h]⟩

/-- The route-table null-override utility leaves every known optional field of
every route truthy or explicitly nulled. -/
theorem routeTableFullySpecified_of_override (rt : RouteTableDesc) :
    routeTableFullySpecified (overrideNullValuesForRouteTable rt) := by
  intro p hp f hf
  by_cases h : f.2 p.2 = true
  · exact Or.inl h
  · refine Or.inr ?_
    simp only [overrideNullValuesForRouteTable, List.mem_append]
    refine Or.inr ?_
    simp only [overrideNullValuesForRouteTable] at hp
    refine List.mem_flatMap.mpr ⟨p, hp, ?_⟩
    exact List.mem_filterMap.mpr ⟨f, hf, by simp [Bool.not_eq_true] at h; simp [h]⟩

/-- Every resource the application-load-balancer construct emits satisfies the
null-normalization invariant. -/
theorem alb_nullNormalized (props : ApplicationLoadBalancerProps) :
    ∀ r ∈ applicationLoadBalancerConstruct props, r.NullNormalized := by
  intro r hr
  simp only [applicationLoadBalancerConstruct, List.mem_cons, List.not_mem_nil, or_false] at hr
  rcases hr with rfl | rfl | rfl | rfl | rfl | rfl | rfl | rfl | rfl | rfl | rfl
  · refine ⟨?_, ?_⟩ <;> · intro p hp; simp [jsList] at hp
  · exact ruleFullySpecified_of_override _
  · exact ruleFullySpecified_of_override _
  · exact ruleFullySpecified_of_override _
  all_goals trivial

/-- Every resource the route-tables construct emits satisfies the
null-normalization invariant. -/
theorem routeTables_nullNormalized (natGatewayIds privateSubnetIds publicSubnetIds : List String)
    (internetGatewayId vpcId resourceNamesPrefix : String) (l : List NetworkResource)
    (h : routeTablesConstruct natGatewayIds privateSubnetIds publicSubnetIds
      internetGatewayId vpcId resourceNamesPrefix = .ok l) :
    ∀ r ∈ l, r.NullNormalized := by
  unfold routeTablesConstruct at h
  split at h
  · exact absurd h (by simp)
  · rw [Except.ok.injEq] at h
    subst h
    intro r hr
    simp only [List.mem_cons, List.mem_append, List.mem_map] at hr
    rcases hr with ((rfl | ⟨s, hs, rfl⟩) | ⟨rt, ⟨p, hp, rfl⟩, rfl⟩) | ⟨p, hp, rfl⟩
    · exact routeTableFullySpecified_of_override _
    · trivial
    · exact routeTableFullySpecified_of_override _
    · trivial

/-- Every resource the network composition emits satisfies the
null-normalization invariant. -/
theorem network_nullNormalized (props : NetworkProps) :
    ∀ r ∈ (networkConstruct props).1, r.NullNormalized := by
  intro r hr
  simp only [networkConstruct] at hr
  split at hr
  · simp only [List.mem_cons, List.mem_append, List.mem_map, or_assoc] at hr
    rcases hr with rfl | rfl | ⟨s, _, rfl⟩ | ⟨s, _, rfl⟩ | ⟨s, _, rfl⟩ <;> trivial
  · rename_i natGateways hnat
    split at hr
    · simp only [List.mem_cons, List.mem_append, List.mem_map, or_assoc] at hr
      rcases hr with rfl | rfl | ⟨s, _, rfl⟩ | ⟨s, _, rfl⟩ | ⟨s, _, rfl⟩ | ⟨s, _, rfl⟩ <;> trivial
    · rename_i routeTableResources hrt
      split at hr
      · simp only [List.mem_cons, List.mem_append, List.mem_map, or_assoc] at hr
        rcases hr with rfl | rfl | ⟨s, _, rfl⟩ | ⟨s, _, rfl⟩ | ⟨s, _, rfl⟩ | ⟨s, _, rfl⟩ | hrr
        · trivial
        · trivial
        · trivial
        · trivial
        · trivial
        · trivial
        · exact routeTables_nullNormalized _ _ _ _ _ _ _ hrt r hrr
      · rename_i sslOut hssl
        simp only [List.mem_cons, List.mem_append, List.mem_map, List.mem_singleton,
          or_assoc] at hr
        rcases hr with rfl | rfl | ⟨s, _, rfl⟩ | ⟨s, _, rfl⟩ | ⟨s, _, rfl⟩ | ⟨s, _, rfl⟩ | hrr | rfl | hnil | halb
        · trivial
        · trivial
        · trivial
        · trivial
        · trivial
        · trivial
        · exact routeTables_nullNormalized _ _ _ _ _ _ _ hrt r hrr
        · trivial
        · exact absurd hnil (List.not_mem_nil r)
        · exact alb_nullNormalized _ r halb

/-- Every resource the tasks construct emits satisfies the null-normalization
invariant. -/
theorem tasks_nullNormalized (props : ComputingProps) :
    ∀ r ∈ tasksConstruct props, r.NullNormalized := by
  intro r hr
  simp only [tasksConstruct, List.mem_cons, List.not_mem_nil, or_false, or_assoc] at hr
  rcases hr with rfl | rfl | rfl | rfl | rfl | rfl | rfl | rfl
  · trivial
  · trivial
  · trivial
  · trivial
  · exact sgElementsFullySpecified_of_override _
  · trivial
  · trivial
  · trivial

/-- Every resource the computing composition emits satisfies the
null-normalization invariant. -/
theorem computing_nullNormalized (esc : String → String) (props : ComputingProps) :
    ∀ r ∈ (computingConstruct esc props).1, r.NullNormalized := by
  intro r hr
  simp only [computingConstruct] at hr
  split at hr
  · simp only [List.mem_cons, List.mem_append, List.mem_map, or_assoc] at hr
    rcases hr with rfl | ⟨s, _, rfl⟩ | ⟨s, _, rfl⟩ | rfl | rfl | hnil | hrt
    · trivial
    · trivial
    · trivial
    · trivial
    · trivial
    · exact absurd hnil (List.not_mem_nil r)
    · exact tasks_nullNormalized props r hrt
  · rename_i service hsvc
    split at hr
    · split at hr
      · simp only [List.mem_cons, List.mem_append, List.mem_map, List.mem_singleton,
          or_assoc] at hr
        rcases hr with rfl | ⟨s, _, rfl⟩ | ⟨s, _, rfl⟩ | rfl | rfl | hnil | hrt | rfl | hnil2
        · trivial
        · trivial
        · trivial
        · trivial
        · trivial
        · exact absurd hnil (List.not_mem_nil r)
        · exact tasks_nullNormalized props r hrt
        · trivial
        · exact absurd hnil2 (List.not_mem_nil r)
      · simp only [List.mem_cons, List.mem_append, List.mem_map, List.mem_singleton,
          or_assoc] at hr
        rcases hr with rfl | ⟨s, _, rfl⟩ | ⟨s, _, rfl⟩ | rfl | rfl | hnil | hrt | rfl | hnil2 | rfl | rfl | rfl | hnil3
        · trivial
        · trivial
        · trivial
        · trivial
        · trivial
        · exact absurd hnil (List.not_mem_nil r)
        · exact tasks_nullNormalized props r hrt
        · trivial
        · exact absurd hnil2 (List.not_mem_nil r)
        · trivial
        · trivial
        · trivial
        · exact absurd hnil3 (List.not_mem_nil r)
    · simp only [List.mem_cons, List.mem_append, List.mem_map, List.mem_singleton,
        or_assoc] at hr
      rcases hr with rfl | ⟨s, _, rfl⟩ | ⟨s, _, rfl⟩ | rfl | rfl | hnil | hrt | rfl | hnil2
      · trivial
      · trivial
      · trivial
      · trivial
      · trivial
      · exact absurd hnil (List.not_mem_nil r)
      · exact tasks_nullNormalized props r hrt
      · trivial
      · exact absurd hnil2 (List.not_mem_nil r)

/-! ## Claim theorems -/

/-- C1: for every configured availability-zone count N ≥ 1 the network
composition produces exactly N private subnet descriptors, exactly max(N,2)
public subnet descriptors, exactly N elastic-IP descriptors and exactly N
NAT-gateway descriptors. -/
theorem network_replication_counts (props : NetworkProps)
    (h : 1 ≤ props.numberOfAvailabilityZonesUsed) :
    ((networkConstruct props).1.countP NetworkResource.isPrivateSubnet =
        props.numberOfAvailabilityZonesUsed) ∧
    ((networkConstruct props).1.countP NetworkResource.isPublicSubnet =
        max props.numberOfAvailabilityZonesUsed 2) ∧
    ((networkConstruct props).1.countP NetworkResource.isElasticIp =
        props.numberOfAvailabilityZonesUsed) ∧
    ((networkConstruct props).1.countP NetworkResource.isNatGateway =
        props.numberOfAvailabilityZonesUsed) := by
  obtain ⟨acc, reg, doms, https, n, pfx⟩ := props
  simp only [networkConstruct, subnetsConstruct, elasticIpsConstruct,
    natGatewaysConstruct, routeTablesConstruct, List.length_map, List.length_range,
    lt_irrefl, if_false, ite_false]
  have h2 : ¬ (n ⊔ 2 < n) := by omega
  simp only [h2, ite_false, List.length_map, List.length_range, ne_eq, lt_irrefl,
    not_true_eq_false, ite_false, if_neg]
  rcases doms with _ | ⟨d0, drest⟩ <;>
  · simp [sslConstruct, applicationLoadBalancerConstruct, List.countP_cons, List.countP_append,
      List.countP_map, Function.comp_def, NetworkResource.isPrivateSubnet,
      NetworkResource.isPublicSubnet, NetworkResource.isElasticIp, NetworkResource.isNatGateway,
      List.countP_true, List.countP_false]

/-- C1 witness: the counts at one availability zone and one domain name. -/
theorem network_replication_counts_witness :
    ((networkConstruct networkPropsExample).1.countP NetworkResource.isPrivateSubnet = 1) ∧
    ((networkConstruct networkPropsExample).1.countP NetworkResource.isPublicSubnet = 2) ∧
    ((networkConstruct networkPropsExample).1.countP NetworkResource.isElasticIp = 1) ∧
    ((networkConstruct networkPropsExample).1.countP NetworkResource.isNatGateway = 1) :=
  network_replication_counts networkPropsExample (by decide)

/-- C2 (amended): for every CPU or memory auto-scaling limit outside [1,100],
when auto-scaling is enabled the computing composition fails, with no
auto-scaling descriptor produced but with the earlier units' descriptors
already produced (the trace is non-empty); when auto-scaling is disabled the
limits are not validated and composition does not fail. -/
theorem autoscaling_limits_validation (esc : String → String) (props : ComputingProps)
    (hout : props.autoScalingCpuLimitPercent < 1 ∨ props.autoScalingCpuLimitPercent > 100 ∨
      props.autoScalingMemoryLimitPercent < 1 ∨ props.autoScalingMemoryLimitPercent > 100) :
    (props.enableAutoScaling = true →
      (computingConstruct esc props).2.isSome = true ∧
      (computingConstruct esc props).1.countP ComputingResource.isAutoScaling = 0 ∧
      (computingConstruct esc props).1 ≠ []) ∧
    (props.enableAutoScaling = false → 1 ≤ props.minimumNumberOfRunningFargateTasks →
      (computingConstruct esc props).2 = none) := by
  constructor
  · intro he
    by_cases hmin : props.minimumNumberOfRunningFargateTasks < 1
    · simp only [computingConstruct, serviceConstruct, if_pos hmin]
      refine ⟨rfl, ?_, by simp⟩
      simp [tasksConstruct, List.countP_cons, List.countP_append, List.countP_map,
        Function.comp_def, ComputingResource.isAutoScaling]
    · by_cases hm : props.autoScalingMemoryLimitPercent < 1 ∨ props.autoScalingMemoryLimitPercent > 100
      · simp only [computingConstruct, serviceConstruct, autoScalingConstruct,
          if_neg hmin, if_pos hm, he, if_true, ite_true]
        refine ⟨rfl, ?_, by simp⟩
        simp [tasksConstruct, List.countP_cons, List.countP_append, List.countP_map,
          Function.comp_def, ComputingResource.isAutoScaling]
      · have hc : props.autoScalingCpuLimitPercent < 1 ∨ props.autoScalingCpuLimitPercent > 100 := by
          rcases hout with hx | hx | hx | hx
          · exact Or.inl hx
          · exact Or.inr hx
          · exact absurd (Or.inl hx) hm
          · exact absurd (Or.inr hx) hm
        simp only [computingConstruct, serviceConstruct, autoScalingConstruct,
          if_neg hmin, if_neg hm, if_pos hc, he, if_true, ite_true]
        refine ⟨rfl, ?_, by simp⟩
        simp [tasksConstruct, List.countP_cons, List.countP_append, List.countP_map,
          Function.comp_def, ComputingResource.isAutoScaling]
  · intro he hmin1
    have hmin : ¬ props.minimumNumberOfRunningFargateTasks < 1 := by omega
    simp only [computingConstruct, serviceConstruct, if_neg hmin, he,
      Bool.false_eq_true, if_false, ite_false]

/-- C2 counterexample: with a CPU limit of 101 the computing composition does
not fail at all when auto-scaling is disabled, and when auto-scaling is
enabled it fails only after fourteen resource descriptors have already been
produced — refuting "fails before any resource descriptor has been
produced". -/
theorem autoscaling_limits_validation_counterexample :
    (computingConstruct id computingPropsOutOfRangeDisabled).2 = none ∧
    (computingConstruct id computingPropsOutOfRange).2.isSome = true ∧
    (computingConstruct id computingPropsOutOfRange).1.length = 14 :=
  ⟨rfl, rfl, rfl⟩

/-- C2 witness: the amended claim at the concrete out-of-range enabled
configuration. -/
theorem autoscaling_limits_validation_witness :
    (computingConstruct id computingPropsOutOfRange).2.isSome = true ∧
    (computingConstruct id computingPropsOutOfRange).1.countP
      ComputingResource.isAutoScaling = 0 ∧
    (computingConstruct id computingPropsOutOfRange).1 ≠ [] :=
  (autoscaling_limits_validation id computingPropsOutOfRange (by decide)).1 rfl

/-- C3: the emitted application secret-parameter descriptors' names are
exactly the input names prefixed APPLICATION_ with the marker stripped, the
builds descriptors exactly the BUILD_-prefixed names stripped, and no input
name can fall in both partitions. -/
theorem env_partition (esc : String → String) (env : ProcessEnv) (pfx : String) :
    ((environmentVariablesConstruct esc (buildsEnvironmentVariablesOf env)
        (applicationEnvironmentVariablesOf env) pfx).1.map SsmParameterDesc.tagName =
      (env.filter fun kv => jsStartsWith applicationEnvMarker kv.1).map
        fun kv => jsStripAnchored applicationEnvMarker kv.1) ∧
    ((environmentVariablesConstruct esc (buildsEnvironmentVariablesOf env)
        (applicationEnvironmentVariablesOf env) pfx).2.map SsmParameterDesc.tagName =
      (env.filter fun kv => jsStartsWith buildsEnvMarker kv.1).map
        fun kv => jsStripAnchored buildsEnvMarker kv.1) ∧
    (∀ kv ∈ env, ¬(jsStartsWith applicationEnvMarker kv.1 = true ∧
        jsStartsWith buildsEnvMarker kv.1 = true)) := by
  refine ⟨?_, ?_, ?_⟩
  · simp [environmentVariablesConstruct, applicationEnvironmentVariablesOf,
      List.map_map, Function.comp_def]
  · simp [environmentVariablesConstruct, buildsEnvironmentVariablesOf,
      List.map_map, Function.comp_def]
  · rintro kv _ ⟨ha, hb⟩
    rw [jsStartsWith] at ha hb
    obtain ⟨t1, h1⟩ := List.isPrefixOf_iff_prefix.mp ha
    obtain ⟨t2, h2⟩ := List.isPrefixOf_iff_prefix.mp hb
    rw [show applicationEnvMarker = 'A' :: "PPLICATION_".data from rfl] at h1
    rw [show buildsEnvMarker = 'B' :: "UILD_".data from rfl] at h2
    rw [List.cons_append] at h1 h2
    have := h1.trans h2.symm
    simp at this

/-- C4: every security-group, security-group-rule and route-table descriptor
emitted by the network, computing and builds units carries an explicit null
override for each known optional field not set to a truthy value, and the
composition functions are pure, so synthesizing twice from identical input
yields identical descriptor output. -/
theorem null_override_idempotence (nprops : NetworkProps) (esc : String → String)
    (cprops : ComputingProps) (buildsVpcId : String) (buildsNamesPfx : String) :
    (∀ r ∈ (networkConstruct nprops).1, r.NullNormalized) ∧
    (∀ r ∈ (computingConstruct esc cprops).1, r.NullNormalized) ∧
    sgElementsFullySpecified (buildsConstructSecurityGroup buildsNamesPfx buildsVpcId) ∧
    networkConstruct nprops = networkConstruct nprops ∧
    computingConstruct esc cprops = computingConstruct esc cprops :=
  ⟨network_nullNormalized nprops, computing_nullNormalized esc cprops,
   sgElementsFullySpecified_of_override _, rfl, rfl⟩

/-- C5: the auto-scaling resources (one scaling target plus CPU and memory
target-tracking policies with 300-second scale-in/scale-out cooldowns and
target values equal to the configured limits) appear in the computing output
iff the auto-scaling flag is true; with the flag false there are zero
auto-scaling descriptors. -/
theorem autoscaling_gated (esc : String → String) (props : ComputingProps)
    (hcpu1 : 1 ≤ props.autoScalingCpuLimitPercent)
    (hcpu2 : props.autoScalingCpuLimitPercent ≤ 100)
    (hmem1 : 1 ≤ props.autoScalingMemoryLimitPercent)
    (hmem2 : props.autoScalingMemoryLimitPercent ≤ 100)
    (hmin : 1 ≤ props.minimumNumberOfRunningFargateTasks)
    (hmax : 1 ≤ props.maximumNumberOfRunningFargateTasks) :
    ((computingConstruct esc props).1.countP ComputingResource.isAutoScaling =
      if props.enableAutoScaling then 3 else 0) ∧
    (props.enableAutoScaling = true →
      ComputingResource.appautoscalingTargetRes
        { maxCapacity := props.maximumNumberOfRunningFargateTasks
          minCapacity := props.minimumNumberOfRunningFargateTasks
          resourceId := "service/" ++ (props.resourceNamesPrefix ++ "_fargate_cluster") ++
            "/" ++ (props.resourceNamesPrefix ++ "_fargate_service")
          scalableDimension := "ecs:service:DesiredCount"
          serviceNamespace := "ecs" } ∈ (computingConstruct esc props).1 ∧
      ComputingResource.appautoscalingPolicyRes
        { name := props.resourceNamesPrefix ++ "_fargate_auto_scaling_cpu_policy"
          policyType := "TargetTrackingScaling"
          resourceId := "service/" ++ (props.resourceNamesPrefix ++ "_fargate_cluster") ++
            "/" ++ (props.resourceNamesPrefix ++ "_fargate_service")
          scalableDimension := "ecs:service:DesiredCount"
          serviceNamespace := "ecs"
          predefinedMetricType := "ECSServiceAverageCPUUtilization"
          scaleInCooldown := 300
          scaleOutCooldown := 300
          targetValue := props.autoScalingCpuLimitPercent } ∈ (computingConstruct esc props).1 ∧
      ComputingResource.appautoscalingPolicyRes
        { name := props.resourceNamesPrefix ++ "_fargate_auto_scaling_memory_policy"
          policyType := "TargetTrackingScaling"
          resourceId := "service/" ++ (props.resourceNamesPrefix ++ "_fargate_cluster") ++
            "/" ++ (props.resourceNamesPrefix ++ "_fargate_service")
          scalableDimension := "ecs:service:DesiredCount"
          serviceNamespace := "ecs"
          predefinedMetricType := "ECSServiceAverageMemoryUtilization"
          scaleInCooldown := 300
          scaleOutCooldown := 300
          targetValue := props.autoScalingMemoryLimitPercent } ∈ (computingConstruct esc props).1) := by
  have hsvc : ¬ props.minimumNumberOfRunningFargateTasks < 1 := by omega
  have hm : ¬ (props.autoScalingMemoryLimitPercent < 1 ∨ props.autoScalingMemoryLimitPercent > 100) := by omega
  have hc : ¬ (props.autoScalingCpuLimitPercent < 1 ∨ props.autoScalingCpuLimitPercent > 100) := by omega
  have hmm : ¬ (props.minimumNumberOfRunningFargateTasks < 1 ∨ props.maximumNumberOfRunningFargateTasks < 1) := by omega
  constructor
  · cases he : props.enableAutoScaling with
    | false =>
      simp only [computingConstruct, serviceConstruct, autoScalingConstruct, he,
        if_neg hsvc, if_neg hm, if_neg hc, if_neg hmm, if_false, Bool.false_eq_true,
        ite_false]
      simp [tasksConstruct, List.countP_cons, List.countP_append, List.countP_map,
        Function.comp_def, ComputingResource.isAutoScaling]
    | true =>
      simp only [computingConstruct, serviceConstruct, autoScalingConstruct, he,
        if_neg hsvc, if_neg hm, if_neg hc, if_neg hmm, if_true, ite_true]
      simp [tasksConstruct, List.countP_cons, List.countP_append, List.countP_map,
        Function.comp_def, ComputingResource.isAutoScaling]
  · intro he
    simp only [computingConstruct, serviceConstruct, autoScalingConstruct, he,
      if_neg hsvc, if_neg hm, if_neg hc, if_neg hmm, if_true, ite_true]
    refine ⟨?_, ?_, ?_⟩ <;>
    · simp [List.mem_append, List.mem_cons]

/-- C5 witness: three auto-scaling descriptors at the concrete enabled
configuration. -/
theorem autoscaling_gated_witness :
    (computingConstruct id computingPropsAutoScalingOn).1.countP
      ComputingResource.isAutoScaling = 3 :=
  (autoscaling_gated id computingPropsAutoScalingOn (by decide) (by decide) (by decide)
    (by decide) (by decide) (by decide)).1

/-- C6: for any admissible minimum task count, the service descriptor's
task-definition field equals the deferred formula "family followed by the
maximum of the main and currently registered task-definition revisions", a
Terraform-time expression rather than a synthesis-time value. -/
theorem service_task_definition_formula (props : ServiceProps)
    (h : ¬ props.minimumNumberOfRunningTasks < 1) :
    (serviceConstruct props).map ServiceDesc.taskDefinition =
      .ok (specTaskDefinitionFormula props.mainTaskDefinitionFamily
        props.mainTaskDefinitionFqn props.currentTaskDefinitionFqn) := by
  simp [serviceConstruct, if_neg h, specTaskDefinitionFormula, Except.map]

/-- C6 witness: the formula at a concrete one-task configuration. -/
theorem service_task_definition_formula_witness :
    (serviceConstruct servicePropsOneTask).map ServiceDesc.taskDefinition =
      .ok (specTaskDefinitionFormula servicePropsOneTask.mainTaskDefinitionFamily
        servicePropsOneTask.mainTaskDefinitionFqn
        servicePropsOneTask.currentTaskDefinitionFqn) :=
  service_task_definition_formula servicePropsOneTask (by decide)

/-- C7: for every requested minimum number of running tasks strictly below
one, the service unit throws, and the auto-scaling unit also throws when
invoked. -/
theorem minimum_tasks_validation (sprops : ServiceProps) (aprops : AutoScalingProps)
    (h1 : sprops.minimumNumberOfRunningTasks < 1)
    (h2 : aprops.minimumNumberOfRunningTasks < 1) :
    isThrown (serviceConstruct sprops) = true ∧
    isThrown (autoScalingConstruct aprops) = true := by
  constructor
  · simp [serviceConstruct, if_pos h1, isThrown]
  · unfold autoScalingConstruct
    split
    · rfl
    · split
      · rfl
      · rw [if_pos (Or.inl h2)]
        rfl

/-- C7 witness: both units throw at zero requested tasks. -/
theorem minimum_tasks_validation_witness :
    isThrown (serviceConstruct servicePropsZeroTasks) = true ∧
    isThrown (autoScalingConstruct autoScalingPropsZeroTasks) = true :=
  minimum_tasks_validation servicePropsZeroTasks autoScalingPropsZeroTasks
    (by decide) (by decide)

/-- C8: with an empty domain-name list the SSL unit throws before producing
the certificate descriptor, and the network composition's trace contains no
ACM certificate and carries the SSL error. -/
theorem ssl_requires_domain (props : NetworkProps) (h : props.domainNames = []) :
    isThrown (sslConstruct props.domainNames props.resourceNamesPrefix) = true ∧
    (networkConstruct props).1.countP NetworkResource.isAcmCertificate = 0 ∧
    (networkConstruct props).2 = some "You must specify at least one domain name" := by
  obtain ⟨acc, reg, doms, https, n, pfx⟩ := props
  simp only at h
  subst h
  refine ⟨rfl, ?_⟩
  simp only [networkConstruct, subnetsConstruct, elasticIpsConstruct,
    natGatewaysConstruct, routeTablesConstruct, List.length_map, List.length_range,
    lt_irrefl, if_false, ite_false]
  have h2 : ¬ (n ⊔ 2 < n) := by omega
  simp only [h2, ite_false, List.length_map, List.length_range, ne_eq, lt_irrefl,
    not_true_eq_false, ite_false, if_neg]
  simp [sslConstruct, List.countP_cons, List.countP_append, List.countP_map,
    Function.comp_def, NetworkResource.isAcmCertificate]

/-- C8 witness: the SSL failure at the concrete empty-domain configuration. -/
theorem ssl_requires_domain_witness :
    isThrown (sslConstruct networkPropsNoDomains.domainNames
      networkPropsNoDomains.resourceNamesPrefix) = true ∧
    (networkConstruct networkPropsNoDomains).1.countP NetworkResource.isAcmCertificate = 0 ∧
    (networkConstruct networkPropsNoDomains).2 =
      some "You must specify at least one domain name" :=
  ssl_requires_domain networkPropsNoDomains rfl

/-- C9: the load balancer always gets exactly two listeners, port 443 always
forwarding to the target group, and port 80 redirecting to 443 with HTTP 301
when HTTPS is enabled or forwarding directly otherwise. -/
theorem alb_two_listeners (props : ApplicationLoadBalancerProps) :
    ((applicationLoadBalancerConstruct props).countP NetworkResource.isListener = 2) ∧
    (props.enableHttps = true →
      networkListeners (applicationLoadBalancerConstruct props) =
        [{ certificateArn := some props.acmCertificateArn
           defaultAction := [.forwardTo (tfRef "application_load_balancer_target_group.arn")]
           loadBalancerArn := tfRef "application_load_balancer.arn"
           port := 443, protocol := "HTTPS" },
         { defaultAction := [.redirect "443" "HTTPS" "HTTP_301"]
           loadBalancerArn := tfRef "application_load_balancer.arn"
           port := 80, protocol := "HTTP" }]) ∧
    (props.enableHttps = false →
      networkListeners (applicationLoadBalancerConstruct props) =
        [{ certificateArn := some props.acmCertificateArn
           defaultAction := [.forwardTo (tfRef "application_load_balancer_target_group.arn")]
           loadBalancerArn := tfRef "application_load_balancer.arn"
           port := 443, protocol := "HTTPS" },
         { defaultAction := [.forwardTo (tfRef "application_load_balancer_target_group.arn")]
           loadBalancerArn := tfRef "application_load_balancer.arn"
           port := 80, protocol := "HTTP" }]) := by
  refine ⟨?_, ?_, ?_⟩
  · simp [applicationLoadBalancerConstruct, NetworkResource.isListener]
  · intro he
    simp [applicationLoadBalancerConstruct, networkListeners, he]
  · intro he
    simp [applicationLoadBalancerConstruct, networkListeners, he]

/-- C10: for every region absent from the static region → account-id table,
the access-log bucket policy composition does not fail and the policy's
first-statement principal ARN embeds the literal text "undefined" in place of
an account id. -/
theorem missing_region_embeds_undefined (props : ApplicationLoadBalancerProps)
    (h : lbLogsBucketPolicyAccountIdDependingOnRegion.lookup props.currentRegionAsString = none) :
    lbLogsBucketPolicyPrincipalArn props.currentRegionAsString = "arn:aws:iam::undefined:root" ∧
    (applicationLoadBalancerConstruct props).countP NetworkResource.isPolicyDocument = 1 ∧
    (∀ d, NetworkResource.policyDocumentRes d ∈ applicationLoadBalancerConstruct props →
      (d.statement.map PolicyStatementDesc.principalIdentifiers).head? =
        some ["arn:aws:iam::undefined:root"]) := by
  refine ⟨?_, ?_, ?_⟩
  · simp [lbLogsBucketPolicyPrincipalArn, h, jsEmbed]
  · simp [applicationLoadBalancerConstruct, NetworkResource.isPolicyDocument]
  · intro d hd
    simp only [applicationLoadBalancerConstruct, List.mem_cons, List.not_mem_nil,
      or_false] at hd
    rcases hd with h1 | h1 | h1 | h1 | h1 | h1 | h1 | h1 | h1 | h1 | h1
    · cases h1
    · cases h1
    · cases h1
    · cases h1
    · cases h1
    · injection h1 with h1
      subst h1
      simp only [List.map_cons, List.head?_cons, Option.some.injEq,
        List.cons.injEq, and_true]
      rw [lbLogsBucketPolicyPrincipalArn, h]
      rfl
    · cases h1
    · cases h1
    · cases h1
    · cases h1
    · cases h1

/-- C10 witness: the "undefined" principal at the concrete unlisted region
eu-central-2. -/
theorem missing_region_embeds_undefined_witness :
    lbLogsBucketPolicyPrincipalArn albPropsUnknownRegion.currentRegionAsString =
      "arn:aws:iam::undefined:root" ∧
    (applicationLoadBalancerConstruct albPropsUnknownRegion).countP
      NetworkResource.isPolicyDocument = 1 ∧
    (∀ d, NetworkResource.policyDocumentRes d ∈
        applicationLoadBalancerConstruct albPropsUnknownRegion →
      (d.statement.map PolicyStatementDesc.principalIdentifiers).head? =
        some ["arn:aws:iam::undefined:root"]) :=
  missing_region_embeds_undefined albPropsUnknownRegion rfl
